import Mathlib

/-!
Shallow embedding of `src/main.py`, a classroom attendance tracking API
(FastAPI, in-memory state).  The two module-level collections
`students_db : Dict[str, Student]` and `attendance_db : List[AttendanceRecord]`
become one explicit state record; each endpoint handler becomes a function
from the state (plus the request data and the current date/time, which the
Python code reads from the clock) to a new state and an `Except` result.
`datetime.now()` / `date.today()` are modelled by explicit `Nat` parameters.
An HTTPException raised before any mutation leaves the returned state equal
to the input state, mirroring the Python behaviour where `raise` happens
before the global collections are touched.
-/

deriving instance DecidableEq for Except

/-- The `AttendanceStatus` enum from `main.py` (`presente` / `ausente` / `tardanza`). -/
inductive AttendanceStatus where
  | presente
  | ausente
  | tardanza
deriving DecidableEq, Repr

/-- The `Student` pydantic model: `matricula`, `nombre`, `created_at`
(a `datetime`, modelled as `Nat`). -/
structure Student where
  matricula : String
  nombre : String
  created_at : Nat
deriving DecidableEq, Repr

/-- The `AttendanceRecord` pydantic model. `fecha : date` and `hora : datetime`
are modelled as `Nat`. -/
structure AttendanceRecord where
  matricula : String
  nombre : String
  status : AttendanceStatus
  fecha : Nat
  hora : Nat
  observaciones : Option String
deriving DecidableEq, Repr

/-- The `AttendanceRequest` pydantic model: `status` defaults to `presente`,
`observaciones` defaults to `None`. -/
structure AttendanceRequest where
  matricula : String
  status : AttendanceStatus := .presente
  observaciones : Option String := none
deriving DecidableEq, Repr

/-- The `AttendanceStats` pydantic model.  `ausentes` is an `Int` because the
Python arithmetic `total - len(today_records) + ...` is over unbounded ints;
`porcentaje_asistencia` (a Python float produced by true division) is
modelled as a rational. -/
structure AttendanceStats where
  total_estudiantes : Nat
  presentes : Nat
  ausentes : Int
  tardanzas : Nat
  porcentaje_asistencia : ℚ
deriving DecidableEq, Repr

/-- The module-level state: `students_db` (a dict, kept here as the list of
its entries in insertion order — keys are unique by construction of the
operations) and `attendance_db`. -/
structure AppState where
  students_db : List Student
  attendance_db : List AttendanceRecord
deriving DecidableEq, Repr

/-- The two error outcomes of the handlers: 404 "Estudiante no encontrado"
and 400 "La matrícula ya existe". -/
inductive ApiError where
  | notFound
  | alreadyExists
deriving DecidableEq, Repr

/-- Dict lookup `students_db[matricula]` / membership test: the entry whose
key equals `m` (first match; keys are unique in a dict). -/
def findStudent (s : AppState) (m : String) : Option Student :=
  s.students_db.find? (fun st => st.matricula == m)

/-- Replaces the first element satisfying `p` by `v` (models in-place
mutation of the object found by a first-match search). -/
def updateFirst {α : Type} (l : List α) (p : α → Bool) (v : α) : List α :=
  match l with
  | [] => []
  | x :: xs => if p x then v :: xs else x :: updateFirst xs p v

/-- Endpoint `GET /students/{matricula}` (`get_student`): 404 if the matricula is
absent, otherwise the student. -/
def get_student (s : AppState) (m : String) : Except ApiError Student :=
  match findStudent s m with
  | none => .error .notFound
  | some st => .ok st

/-- Endpoint `POST /students` (`add_student`): 400 if `student.matricula` is already a
key of `students_db`, otherwise insert (a new dict key goes last in insertion
order) and return the student. -/
def add_student (s : AppState) (student : Student) :
    AppState × Except ApiError Student :=
  if s.students_db.any (fun x => x.matricula == student.matricula) then
    (s, .error .alreadyExists)
  else
    ({ s with students_db := s.students_db ++ [student] }, .ok student)

/-- Endpoint `POST /students` as invoked with a body `{matricula, nombre}`: pydantic
fills `created_at` by `default_factory=datetime.now` at request time
(`now`), then `add_student` runs. -/
def create (s : AppState) (m nombre : String) (now : Nat) :
    AppState × Except ApiError Student :=
  add_student s ⟨m, nombre, now⟩

/-- Endpoint `PUT /students/{matricula}` (`update_student`): 404 if absent; then
`if student_update.nombre:` — Python truthiness, so `None` and the empty
string both skip the assignment — otherwise the found student object's
`nombre` is mutated in place. -/
def update_student (s : AppState) (m : String) (nombre? : Option String) :
    AppState × Except ApiError Student :=
  match findStudent s m with
  | none => (s, .error .notFound)
  | some st =>
    match nombre? with
    | none => (s, .ok st)
    | some n =>
      if n == "" then (s, .ok st)
      else
        let st' : Student := { st with nombre := n }
        ({ s with
            students_db := updateFirst s.students_db (fun x => x.matricula == m) st' },
          .ok st')

/-- Endpoint `DELETE /students/{matricula}` (`delete_student`): 404 if absent;
`students_db.pop(matricula)` removes the entry and returns its value, then
every attendance record with that matricula is filtered out. -/
def delete_student (s : AppState) (m : String) :
    AppState × Except ApiError Student :=
  match findStudent s m with
  | none => (s, .error .notFound)
  | some st =>
    ({ students_db := s.students_db.filter (fun x => x.matricula != m),
       attendance_db := s.attendance_db.filter (fun r => r.matricula != m) },
      .ok st)

/-- Endpoint `POST /attendance` (`mark_attendance`): 404 if the matricula is not
registered; look for an existing record with the same matricula and
`fecha == today` (first match by log order); if found, overwrite its
`status`, `hora` (set to `now`) and `observaciones` in place; otherwise
append a fresh record with `nombre` copied from the student. -/
def mark_attendance (s : AppState) (attendance : AttendanceRequest)
    (today now : Nat) : AppState × Except ApiError AttendanceRecord :=
  match findStudent s attendance.matricula with
  | none => (s, .error .notFound)
  | some student =>
    match s.attendance_db.find?
        (fun r => r.matricula == attendance.matricula && r.fecha == today) with
    | some existing =>
      let updated : AttendanceRecord :=
        { existing with
            status := attendance.status
            hora := now
            observaciones := attendance.observaciones }
      ({ s with
          attendance_db := updateFirst s.attendance_db
            (fun r => r.matricula == attendance.matricula && r.fecha == today)
            updated },
        .ok updated)
    | none =>
      let record : AttendanceRecord :=
        ⟨attendance.matricula, student.nombre, attendance.status, today, now,
          attendance.observaciones⟩
      ({ s with attendance_db := s.attendance_db ++ [record] }, .ok record)

/-- Endpoint `GET /attendance/student/{matricula}` (`get_student_attendance`): 404 if
the student is absent, otherwise all records with that matricula. -/
def get_student_attendance (s : AppState) (m : String) :
    Except ApiError (List AttendanceRecord) :=
  if s.students_db.any (fun x => x.matricula == m) then
    .ok (s.attendance_db.filter (fun r => r.matricula == m))
  else
    .error .notFound

/-- Python's `round(x, 2)` on a nonnegative rational: scale by 100, round
half to even, scale back. -/
def pyRound2 (q : ℚ) : ℚ :=
  let s : ℚ := q * 100
  let fl : Int := ⌊s⌋
  let r : Int :=
    if s - fl < 1/2 then fl
    else if 1/2 < s - fl then fl + 1
    else if fl % 2 = 0 then fl else fl + 1
  (r : ℚ) / 100

/-- Endpoint `GET /reports/stats/today` (`get_today_stats`). -/
def get_today_stats (s : AppState) (today : Nat) : AttendanceStats :=
  let today_records := s.attendance_db.filter (fun r => r.fecha == today)
  let total_estudiantes := s.students_db.length
  let presentes :=
    (today_records.filter (fun r => r.status == AttendanceStatus.presente)).length
  let ausentes : Int :=
    (total_estudiantes : Int) - today_records.length +
      (today_records.filter (fun r => r.status == AttendanceStatus.ausente)).length
  let tardanzas :=
    (today_records.filter (fun r => r.status == AttendanceStatus.tardanza)).length
  let porcentaje_asistencia : ℚ :=
    if 0 < total_estudiantes then (presentes : ℚ) / total_estudiantes * 100 else 0
  ⟨total_estudiantes, presentes, ausentes, tardanzas, pyRound2 porcentaje_asistencia⟩

/-- Response shape of `GET /reports/missing-today`. -/
structure MissingReport where
  fecha : Nat
  estudiantes_faltantes : List Student
  total_faltantes : Nat
deriving DecidableEq, Repr

/-- Endpoint `GET /reports/missing-today` (`get_missing_students_today`): the
registered students whose matricula is not among the matriculas of today's
records. -/
def get_missing_students_today (s : AppState) (today : Nat) : MissingReport :=
  let today_records := s.attendance_db.filter (fun r => r.fecha == today)
  let attended_matriculas := today_records.map (fun r => r.matricula)
  let missing_students :=
    s.students_db.filter (fun st => !(attended_matriculas.contains st.matricula))
  ⟨today, missing_students, missing_students.length⟩

/-- The invariant of the spec: at most one attendance record per
`(matricula, fecha)` pair — no two records in the log share both fields. -/
def attInv (l : List AttendanceRecord) : Prop :=
  l.Pairwise (fun a b => a.matricula ≠ b.matricula ∨ a.fecha ≠ b.fecha)

instance (l : List AttendanceRecord) : Decidable (attInv l) :=
  inferInstanceAs
    (Decidable (l.Pairwise fun a b : AttendanceRecord =>
      a.matricula ≠ b.matricula ∨ a.fecha ≠ b.fecha))

/-- The module initialisation: the ten `example_students` are inserted into
`students_db` (each `created_at` set by the default factory at import time,
modelled by `t0`); `attendance_db` starts empty. -/
def initState (t0 : Nat) : AppState :=
  ⟨[⟨"2024001", "Ana García López", t0⟩,
    ⟨"2024002", "Carlos Rodríguez Martín", t0⟩,
    ⟨"2024003", "María Fernández Silva", t0⟩,
    ⟨"2024004", "José Luis Hernández", t0⟩,
    ⟨"2024005", "Laura Martínez Ruiz", t0⟩,
    ⟨"2024006", "Pedro Sánchez Morales", t0⟩,
    ⟨"2024007", "Carmen Jiménez Torres", t0⟩,
    ⟨"2024008", "Miguel Ángel Ruiz", t0⟩,
    ⟨"2024009", "Isabel Moreno Castro", t0⟩,
    ⟨"2024010", "Francisco Javier López", t0⟩],
   []⟩

/-- A two-student state with one attendance record, used to instantiate the
universally quantified theorems below at a concrete input. -/
def wState : AppState :=
  ⟨[⟨"w1", "Alice", 0⟩, ⟨"w2", "Bob", 0⟩],
   [⟨"w2", "Bob", .presente, 1, 1, none⟩]⟩

/-- Five registered students, no attendance yet (the scenario of the spec's
`statsToday` example). -/
def fiveState : AppState :=
  ⟨[⟨"e1", "E1", 0⟩, ⟨"e2", "E2", 0⟩, ⟨"e3", "E3", 0⟩, ⟨"e4", "E4", 0⟩,
    ⟨"e5", "E5", 0⟩],
   []⟩

/-- State `fiveState` after two students mark present and one marks absent on
day 1 (two students never mark). -/
def fiveMarked : AppState :=
  (mark_attendance
    (mark_attendance
      (mark_attendance fiveState ⟨"e1", .presente, none⟩ 1 2).1
      ⟨"e2", .presente, none⟩ 1 3).1
    ⟨"e3", .ausente, none⟩ 1 4).1

-- ## Helper lemmas

theorem mem_updateFirst {α : Type} {l : List α} {p : α → Bool} {v a : α}
    (h : a ∈ updateFirst l p v) : a = v ∨ a ∈ l := by
  induction l with
  | nil => exact absurd h (by simp [updateFirst])
  | cons x xs ih =>
    simp only [updateFirst] at h
    by_cases hp : p x
    · rw [if_pos hp] at h
      rcases List.mem_cons.mp h with h | h
      · exact Or.inl h
      · exact Or.inr (List.mem_cons_of_mem _ h)
    · rw [if_neg hp] at h
      rcases List.mem_cons.mp h with h | h
      · exact Or.inr (h ▸ List.mem_cons_self x xs)
      · rcases ih h with h | h
        · exact Or.inl h
        · exact Or.inr (List.mem_cons_of_mem _ h)

theorem filter_updateFirst {α : Type} {l : List α} {p : α → Bool} {v : α}
    (hv : p v = true) (hc : l.countP p = 1) :
    (updateFirst l p v).filter p = [v] := by
  induction l with
  | nil => simp at hc
  | cons x xs ih =>
    simp only [updateFirst]
    rw [List.countP_cons] at hc
    by_cases hx : p x
    · rw [if_pos hx] at hc
      have hxs : xs.countP p = 0 := by omega
      rw [if_pos hx, List.filter_cons_of_pos hv,
        List.filter_eq_nil_iff.mpr fun a ha hpa =>
          absurd (List.countP_pos_iff.mpr ⟨a, ha, hpa⟩) (by omega)]
    · rw [if_neg hx] at hc
      have hxs : xs.countP p = 1 := by omega
      rw [if_neg hx, List.filter_cons_of_neg (by simpa using hx)]
      exact ih hxs

theorem find?_updateFirst {α : Type} {l : List α} {p : α → Bool} {v x : α}
    (hv : p v = true) (h : l.find? p = some x) :
    (updateFirst l p v).find? p = some v := by
  induction l with
  | nil => simp at h
  | cons y ys ih =>
    simp only [updateFirst]
    by_cases hy : p y
    · rw [if_pos hy]
      exact List.find?_cons_of_pos _ hv
    · rw [List.find?_cons_of_neg _ hy] at h
      rw [if_neg hy, List.find?_cons_of_neg _ hy]
      exact ih h

theorem countP_updateFirst_eq {α : Type} {l : List α} {p q : α → Bool} {v : α}
    (h : ∀ x ∈ l, p x = true → q x = q v) :
    (updateFirst l p v).countP q = l.countP q := by
  induction l with
  | nil => rfl
  | cons x xs ih =>
    simp only [updateFirst]
    by_cases hp : p x
    · rw [if_pos hp, List.countP_cons, List.countP_cons,
        h x (List.mem_cons_self x xs) hp]
    · rw [if_neg hp, List.countP_cons, List.countP_cons,
        ih fun y hy hpy => h y (List.mem_cons_of_mem _ hy) hpy]

theorem attInv_updateFirst {l : List AttendanceRecord} {m : String} {d : Nat}
    {v : AttendanceRecord} (hm : v.matricula = m) (hd : v.fecha = d)
    (h : attInv l) :
    attInv (updateFirst l (fun r => r.matricula == m && r.fecha == d) v) := by
  induction l with
  | nil => exact h
  | cons x xs ih =>
    rcases List.pairwise_cons.mp h with ⟨hx, hxs⟩
    simp only [updateFirst]
    by_cases hp : (x.matricula == m && x.fecha == d) = true
    · rw [if_pos hp]
      rcases Bool.and_eq_true_iff.mp hp with ⟨hp1, hp2⟩
      have hxm : x.matricula = m := beq_iff_eq.mp hp1
      have hxd : x.fecha = d := by simpa using hp2
      refine List.pairwise_cons.mpr ⟨fun a ha => ?_, hxs⟩
      rcases hx a ha with h' | h'
      · exact Or.inl (by rw [hm, ← hxm]; exact h')
      · exact Or.inr (by rw [hd, ← hxd]; exact h')
    · rw [if_neg hp]
      refine List.pairwise_cons.mpr ⟨fun a ha => ?_, ih hxs⟩
      rcases mem_updateFirst ha with rfl | ha'
      · by_cases hxm : x.matricula = m
        · have hxd : x.fecha ≠ d := fun hfd => hp (by simp [hxm, hfd])
          exact Or.inr (by rw [hd]; exact hxd)
        · exact Or.inl (by rw [hm]; exact hxm)
      · exact hx a ha'

theorem attInv_countP_le_one {l : List AttendanceRecord} (h : attInv l)
    (m : String) (d : Nat) :
    l.countP (fun r => r.matricula == m && r.fecha == d) ≤ 1 := by
  induction l with
  | nil => simp
  | cons x xs ih =>
    rcases List.pairwise_cons.mp h with ⟨hx, hxs⟩
    rw [List.countP_cons]
    by_cases hp : (x.matricula == m && x.fecha == d) = true
    · rcases Bool.and_eq_true_iff.mp hp with ⟨hp1, hp2⟩
      have hxm : x.matricula = m := beq_iff_eq.mp hp1
      have hxd : x.fecha = d := by simpa using hp2
      have hzero : xs.countP (fun r => r.matricula == m && r.fecha == d) = 0 := by
        refine List.countP_eq_zero.mpr fun a ha hpa => ?_
        rcases Bool.and_eq_true_iff.mp hpa with ⟨ha1, ha2⟩
        have ha2' : a.fecha = d := by simpa using ha2
        rcases hx a ha with h' | h'
        · exact h' (by rw [hxm, beq_iff_eq.mp ha1])
        · exact h' (by rw [hxd, ha2'])
      simp [hp, hzero]
    · rw [if_neg hp]
      simpa using ih hxs

theorem mark_attendance_students_db (s : AppState) (req : AttendanceRequest)
    (today now : Nat) :
    (mark_attendance s req today now).1.students_db = s.students_db := by
  unfold mark_attendance
  cases findStudent s req.matricula with
  | none => rfl
  | some student =>
    cases s.attendance_db.find?
        (fun r => r.matricula == req.matricula && r.fecha == today) with
    | none => rfl
    | some existing => rfl

theorem findStudent_mark (s : AppState) (req : AttendanceRequest)
    (today now : Nat) (m : String) :
    findStudent (mark_attendance s req today now).1 m = findStudent s m := by
  unfold findStudent
  rw [mark_attendance_students_db]

theorem mark_filter (s : AppState) (req : AttendanceRequest) (today now : Nat)
    (st : Student) (m : String) (hm : req.matricula = m)
    (hreg : findStudent s m = some st)
    (hcnt : s.attendance_db.countP
      (fun r => r.matricula == m && r.fecha == today) ≤ 1) :
    ∃ nom,
      ((mark_attendance s req today now).1.attendance_db.filter
        (fun r => r.matricula == m && r.fecha == today)) =
        [⟨m, nom, req.status, today, now, req.observaciones⟩] ∧
      (mark_attendance s req today now).2 =
        .ok ⟨m, nom, req.status, today, now, req.observaciones⟩ := by
  subst hm
  unfold mark_attendance
  rw [hreg]
  cases hfind : s.attendance_db.find?
      (fun r => r.matricula == req.matricula && r.fecha == today) with
  | none =>
    have hnil : s.attendance_db.filter
        (fun r => r.matricula == req.matricula && r.fecha == today) = [] :=
      List.filter_eq_nil_iff.mpr (List.find?_eq_none.mp hfind)
    have hrec : ((s.attendance_db ++
        [(⟨req.matricula, st.nombre, req.status, today, now,
            req.observaciones⟩ : AttendanceRecord)]).filter
        (fun r => r.matricula == req.matricula && r.fecha == today)) =
        [(⟨req.matricula, st.nombre, req.status, today, now,
            req.observaciones⟩ : AttendanceRecord)] := by
      rw [List.filter_append, hnil]
      simp
    exact ⟨st.nombre, hrec, rfl⟩
  | some existing =>
    have hpe := List.find?_some hfind
    rcases Bool.and_eq_true_iff.mp hpe with ⟨hm, hd⟩
    have hm' : existing.matricula = req.matricula := beq_iff_eq.mp hm
    have hd' : existing.fecha = today := by simpa using hd
    have hone : s.attendance_db.countP
        (fun r => r.matricula == req.matricula && r.fecha == today) = 1 := by
      have : 0 < s.attendance_db.countP
          (fun r => r.matricula == req.matricula && r.fecha == today) :=
        List.countP_pos_iff.mpr
          ⟨existing, List.mem_of_find?_eq_some hfind, hpe⟩
      omega
    have hupd : ({ existing with
        status := req.status, hora := now,
        observaciones := req.observaciones } : AttendanceRecord) =
        ⟨req.matricula, existing.nombre, req.status, today, now,
          req.observaciones⟩ := by
      rw [hm', hd']
    have h1 : (updateFirst s.attendance_db
        (fun r => r.matricula == req.matricula && r.fecha == today)
        ({ existing with
            status := req.status, hora := now,
            observaciones := req.observaciones } : AttendanceRecord)).filter
        (fun r => r.matricula == req.matricula && r.fecha == today) =
        [(⟨req.matricula, existing.nombre, req.status, today, now,
            req.observaciones⟩ : AttendanceRecord)] := by
      rw [hupd]
      exact filter_updateFirst (by simp) hone
    exact ⟨existing.nombre, h1, congrArg Except.ok hupd⟩

theorem add_student_attendance_db (s : AppState) (student : Student) :
    (add_student s student).1.attendance_db = s.attendance_db := by
  unfold add_student
  split <;> rfl

theorem update_student_attendance_db (s : AppState) (m : String)
    (nombre? : Option String) :
    (update_student s m nombre?).1.attendance_db = s.attendance_db := by
  unfold update_student
  cases findStudent s m with
  | none => rfl
  | some st =>
    cases nombre? with
    | none => rfl
    | some n =>
      dsimp only
      split <;> rfl

theorem attInv_mark (s : AppState) (req : AttendanceRequest) (today now : Nat)
    (h : attInv s.attendance_db) :
    attInv (mark_attendance s req today now).1.attendance_db := by
  unfold mark_attendance
  cases hreg : findStudent s req.matricula with
  | none => exact h
  | some student =>
    cases hfind : s.attendance_db.find?
        (fun r => r.matricula == req.matricula && r.fecha == today) with
    | some existing =>
      have hpe := List.find?_some hfind
      rcases Bool.and_eq_true_iff.mp hpe with ⟨hm, hd⟩
      exact attInv_updateFirst (beq_iff_eq.mp hm) (by simpa using hd) h
    | none =>
      have hnone := List.find?_eq_none.mp hfind
      refine List.pairwise_append.mpr ⟨h, List.pairwise_singleton _ _, ?_⟩
      intro a ha b hb
      rw [List.mem_singleton.mp hb]
      by_cases hma : a.matricula = req.matricula
      · exact Or.inr fun hfa => hnone a ha (by simp [hma, hfa])
      · exact Or.inl hma

/-- C4: the invariant "at most one attendance record per (matricula, fecha)
pair" holds in the initial state and is preserved by `create`
(`add_student`), `update_student`, `delete_student` and `mark_attendance`:
no operation leaves two records in the log with the same matricula and the
same fecha. -/
theorem C4_invariant_preserved :
    (∀ t0, attInv (initState t0).attendance_db) ∧
    (∀ s m nombre now, attInv s.attendance_db →
      attInv (create s m nombre now).1.attendance_db) ∧
    (∀ s m nombre?, attInv s.attendance_db →
      attInv (update_student s m nombre?).1.attendance_db) ∧
    (∀ s m, attInv s.attendance_db →
      attInv (delete_student s m).1.attendance_db) ∧
    (∀ s req today now, attInv s.attendance_db →
      attInv (mark_attendance s req today now).1.attendance_db) := by
  refine ⟨fun t0 => List.Pairwise.nil, ?_, ?_, ?_, ?_⟩
  · intro s m nombre now h
    rw [create, add_student_attendance_db]
    exact h
  · intro s m nombre? h
    rw [update_student_attendance_db]
    exact h
  · intro s m h
    unfold delete_student
    cases findStudent s m with
    | none => exact h
    | some st => exact h.sublist (List.filter_sublist _)
  · exact fun s req today now h => attInv_mark s req today now h

/-- Witness for C4: the mark-update branch run on a concrete state that
already holds a same-day record for the student. -/
theorem C4_witness :
    attInv (mark_attendance wState ⟨"w2", .tardanza, none⟩ 1 9).1.attendance_db :=
  C4_invariant_preserved.2.2.2.2 wState ⟨"w2", .tardanza, none⟩ 1 9 (by decide)

/-- C1: for every student registered in the directory, calling
`mark_attendance` twice on the same calendar date (the second call with
status `s2`, observaciones `o2`, at time `t2`) leaves exactly one attendance
record for that (matricula, today) pair in the log, and that record carries
the second call's status `s2`, observaciones `o2` and the hora `t2` written
by the second call.  The invariant of C4 is assumed for the starting
state. -/
theorem C1_mark_twice_same_day (s : AppState) (m : String) (st : Student)
    (hreg : findStudent s m = some st) (hinv : attInv s.attendance_db)
    (s1 s2 : AttendanceStatus) (o1 o2 : Option String) (today t1 t2 : Nat) :
    ∃ nom,
      ((mark_attendance (mark_attendance s ⟨m, s1, o1⟩ today t1).1
          ⟨m, s2, o2⟩ today t2).1.attendance_db.filter
        (fun r => r.matricula == m && r.fecha == today)) =
        [⟨m, nom, s2, today, t2, o2⟩] := by
  obtain ⟨nom1, hf1, hok1⟩ :=
    mark_filter s ⟨m, s1, o1⟩ today t1 st m rfl hreg
      (attInv_countP_le_one hinv m today)
  have hreg2 : findStudent (mark_attendance s ⟨m, s1, o1⟩ today t1).1 m =
      some st := by
    rw [findStudent_mark]
    exact hreg
  have hcnt2 : (mark_attendance s ⟨m, s1, o1⟩ today t1).1.attendance_db.countP
      (fun r => r.matricula == m && r.fecha == today) ≤ 1 := by
    rw [List.countP_eq_length_filter, hf1]
    simp
  obtain ⟨nom2, hf2, hok2⟩ :=
    mark_filter (mark_attendance s ⟨m, s1, o1⟩ today t1).1 ⟨m, s2, o2⟩ today t2
      st m rfl hreg2 hcnt2
  exact ⟨nom2, hf2⟩

/-- Witness for C1: two same-day marks of student w2 of `wState`; the single
remaining (w2, day 1) record carries the second call's data. -/
theorem C1_witness :
    ∃ nom,
      ((mark_attendance (mark_attendance wState ⟨"w2", .presente, none⟩ 1 5).1
          ⟨"w2", .tardanza, some "late"⟩ 1 7).1.attendance_db.filter
        (fun r => r.matricula == "w2" && r.fecha == 1)) =
        [⟨"w2", nom, .tardanza, 1, 7, some "late"⟩] :=
  C1_mark_twice_same_day wState "w2" ⟨"w2", "Bob", 0⟩ (by decide) (by decide)
    .presente .tardanza none (some "late") 1 5 7

/-- C10: a second same-day mark always overwrites the record's
observaciones with the new request's value; when the second request leaves
`observaciones` at its default (`none`), the note stored by the first mark
of the day is erased. -/
theorem C10_remark_default_erases_note (s : AppState) (m : String)
    (st : Student) (hreg : findStudent s m = some st)
    (hinv : attInv s.attendance_db) (s1 s2 : AttendanceStatus) (o : String)
    (today t1 t2 : Nat) :
    (∀ r ∈ (mark_attendance s ⟨m, s1, some o⟩ today t1).1.attendance_db.filter
        (fun r => r.matricula == m && r.fecha == today),
      r.observaciones = some o) ∧
    ∃ nom,
      ((mark_attendance (mark_attendance s ⟨m, s1, some o⟩ today t1).1
          { matricula := m, status := s2 } today t2).1.attendance_db.filter
        (fun r => r.matricula == m && r.fecha == today)) =
        [⟨m, nom, s2, today, t2, none⟩] := by
  obtain ⟨nom1, hf1, hok1⟩ :=
    mark_filter s ⟨m, s1, some o⟩ today t1 st m rfl hreg
      (attInv_countP_le_one hinv m today)
  constructor
  · intro r hr
    rw [hf1] at hr
    rw [List.mem_singleton.mp hr]
  · have hreg2 : findStudent (mark_attendance s ⟨m, s1, some o⟩ today t1).1 m =
        some st := by
      rw [findStudent_mark]
      exact hreg
    have hcnt2 : (mark_attendance s ⟨m, s1, some o⟩ today
        t1).1.attendance_db.countP
        (fun r => r.matricula == m && r.fecha == today) ≤ 1 := by
      rw [List.countP_eq_length_filter, hf1]
      simp
    obtain ⟨nom2, hf2, hok2⟩ :=
      mark_filter (mark_attendance s ⟨m, s1, some o⟩ today t1).1
        { matricula := m, status := s2 } today t2 st m rfl hreg2 hcnt2
    exact ⟨nom2, hf2⟩

/-- Witness for C10: w2 marks with a note, re-marks without supplying
observaciones; the note is gone. -/
theorem C10_witness :
    (∀ r ∈ (mark_attendance wState ⟨"w2", .presente, some "sick"⟩ 2
        4).1.attendance_db.filter (fun r => r.matricula == "w2" && r.fecha == 2),
      r.observaciones = some "sick") ∧
    ∃ nom,
      ((mark_attendance (mark_attendance wState ⟨"w2", .presente, some "sick"⟩
          2 4).1 { matricula := "w2", status := .ausente } 2 6).1.attendance_db.filter
        (fun r => r.matricula == "w2" && r.fecha == 2)) =
        [⟨"w2", nom, .ausente, 2, 6, none⟩] :=
  C10_remark_default_erases_note wState "w2" ⟨"w2", "Bob", 0⟩ (by decide)
    (by decide) .presente .ausente "sick" 2 4 6

/-- C5: creating a student whose matricula is already in the directory
always fails with AlreadyExists and returns the state exactly unchanged
(both the directory and the attendance log): the failing operation is
atomic with respect to the in-memory state. -/
theorem C5_create_duplicate_fails (s : AppState) (m nombre : String)
    (now : Nat) (st : Student) (hreg : findStudent s m = some st) :
    create s m nombre now = (s, .error .alreadyExists) := by
  unfold create add_student
  have hst0 := List.find?_some hreg
  have hst : (st.matricula == m) = true := hst0
  have hmem : s.students_db.any
      (fun x => x.matricula == (⟨m, nombre, now⟩ : Student).matricula) = true :=
    List.any_eq_true.mpr ⟨st, List.mem_of_find?_eq_some hreg, hst⟩
  rw [if_pos hmem]

/-- Witness for C5: re-creating the already registered w1 fails and leaves
`wState` untouched. -/
theorem C5_witness : create wState "w1" "Nueva" 9 = (wState, .error .alreadyExists) :=
  C5_create_duplicate_fails wState "w1" "Nueva" 9 ⟨"w1", "Alice", 0⟩ (by decide)

/-- C9: updating an existing student with nombre = "" is a no-op on the
stored name — the empty string is treated exactly like an absent nombre
(Python truthiness), the state is unchanged, and the call still succeeds
returning the unmodified record. -/
theorem C9_update_empty_string_noop (s : AppState) (m : String) (st : Student)
    (hreg : findStudent s m = some st) :
    update_student s m (some "") = (s, .ok st) ∧
    update_student s m (some "") = update_student s m none := by
  unfold update_student
  rw [hreg]
  exact ⟨rfl, rfl⟩

/-- Witness for C9: updating w1 with the empty string changes nothing. -/
theorem C9_witness :
    update_student wState "w1" (some "") = (wState, .ok ⟨"w1", "Alice", 0⟩) ∧
    update_student wState "w1" (some "") = update_student wState "w1" none :=
  C9_update_empty_string_noop wState "w1" ⟨"w1", "Alice", 0⟩ (by decide)

/-- C7: creating a student with a fresh matricula inserts a record whose
`created_at` is the current time `now` at the moment of creation
(pydantic's `default_factory=datetime.now`), returns that record, and
leaves the attendance log unchanged. -/
theorem C7_create_fresh_inserts (s : AppState) (m nombre : String) (now : Nat)
    (hfresh : findStudent s m = none) :
    (create s m nombre now).2 = .ok ⟨m, nombre, now⟩ ∧
    (create s m nombre now).1.students_db =
      s.students_db ++ [⟨m, nombre, now⟩] ∧
    (create s m nombre now).1.attendance_db = s.attendance_db := by
  unfold create add_student
  have hany : s.students_db.any
      (fun x => x.matricula == (⟨m, nombre, now⟩ : Student).matricula) = false := by
    rw [List.any_eq_false]
    exact List.find?_eq_none.mp hfresh
  rw [if_neg (by simp [hany])]
  exact ⟨rfl, rfl, rfl⟩

/-- Witness for C7: registering a new student w3 in `wState`. -/
theorem C7_witness :
    (create wState "w3" "Carol" 7).2 = .ok ⟨"w3", "Carol", 7⟩ ∧
    (create wState "w3" "Carol" 7).1.students_db =
      wState.students_db ++ [⟨"w3", "Carol", 7⟩] ∧
    (create wState "w3" "Carol" 7).1.attendance_db = wState.attendance_db :=
  C7_create_fresh_inserts wState "w3" "Carol" 7 (by decide)

/-- C8: creating a student then immediately fetching by the same matricula
returns a record with identical nombre and matricula; and `created_at` is
set exactly once at creation — every later `update_student` call (whatever
nombre it carries) leaves `created_at` and `matricula` unchanged, returning
a record that differs at most in `nombre`, and that record is what a
subsequent lookup sees. -/
theorem C8_roundtrip_and_created_at (s : AppState) (m : String) :
    (∀ nombre now, findStudent s m = none →
      get_student (create s m nombre now).1 m = .ok ⟨m, nombre, now⟩) ∧
    (∀ st nombre?, findStudent s m = some st →
      ∃ st', (update_student s m nombre?).2 = .ok st' ∧
        st'.matricula = st.matricula ∧
        st'.created_at = st.created_at ∧
        findStudent (update_student s m nombre?).1 m = some st') := by
  constructor
  · intro nombre now hfresh
    have hfresh' : s.students_db.find? (fun x => x.matricula == m) = none :=
      hfresh
    have hany : s.students_db.any
        (fun x => x.matricula == (⟨m, nombre, now⟩ : Student).matricula)
        = false := by
      rw [List.any_eq_false]
      exact List.find?_eq_none.mp hfresh
    have hfind : findStudent (create s m nombre now).1 m =
        some ⟨m, nombre, now⟩ := by
      unfold create add_student
      rw [if_neg (by simp [hany])]
      show (s.students_db ++ [(⟨m, nombre, now⟩ : Student)]).find?
          (fun x => x.matricula == m) = some ⟨m, nombre, now⟩
      rw [List.find?_append, hfresh']
      simp
    unfold get_student
    rw [hfind]
  · intro st nombre? hreg
    have hst0 := List.find?_some hreg
    have hst : (st.matricula == m) = true := hst0
    unfold update_student
    rw [hreg]
    cases nombre? with
    | none => exact ⟨st, rfl, rfl, rfl, hreg⟩
    | some n =>
      dsimp only
      by_cases hn : (n == "") = true
      · rw [if_pos hn]
        exact ⟨st, rfl, rfl, rfl, hreg⟩
      · rw [if_neg hn]
        refine ⟨{ st with nombre := n }, rfl, rfl, rfl, ?_⟩
        show (updateFirst s.students_db (fun x => x.matricula == m)
            { st with nombre := n }).find? (fun x => x.matricula == m) =
          some { st with nombre := n }
        exact find?_updateFirst hst hreg

/-- Witness for C8: create w3 and fetch it back; update w1 and check
matricula/created_at survive. -/
theorem C8_witness :
    get_student (create wState "w4" "Dana" 11).1 "w4" = .ok ⟨"w4", "Dana", 11⟩ ∧
    ∃ st', (update_student wState "w1" (some "Alicia")).2 = .ok st' ∧
      st'.matricula = "w1" ∧ st'.created_at = 0 ∧
      findStudent (update_student wState "w1" (some "Alicia")).1 "w1" =
        some st' := by
  constructor
  · exact (C8_roundtrip_and_created_at wState "w4").1 "Dana" 11 (by decide)
  · exact (C8_roundtrip_and_created_at wState "w1").2 ⟨"w1", "Alice", 0⟩
      (some "Alicia") (by decide)

/-- C3: for a matricula present in the directory, deleting removes that
student (subsequent lookup fails) and every attendance record with that
matricula (subsequent `get_student_attendance` fails with NotFound and no
surviving record references the matricula), returns the removed student,
and keeps every record of other students. -/
theorem C3_delete_cascades (s : AppState) (m : String) (st : Student)
    (hreg : findStudent s m = some st) :
    (delete_student s m).2 = .ok st ∧
    findStudent (delete_student s m).1 m = none ∧
    get_student_attendance (delete_student s m).1 m = .error .notFound ∧
    (∀ r ∈ (delete_student s m).1.attendance_db, r.matricula ≠ m) ∧
    (∀ r ∈ s.attendance_db, r.matricula ≠ m →
      r ∈ (delete_student s m).1.attendance_db) := by
  unfold delete_student
  rw [hreg]
  dsimp only
  refine ⟨rfl, ?_, ?_, ?_, ?_⟩
  · show (s.students_db.filter (fun x => x.matricula != m)).find?
        (fun x => x.matricula == m) = none
    rw [List.find?_eq_none]
    intro x hx
    have hne := (List.mem_filter.mp hx).2
    simp only [bne_iff_ne, ne_eq] at hne
    simp [hne]
  · unfold get_student_attendance
    have hany : ((s.students_db.filter (fun x => x.matricula != m)).any
        (fun x => x.matricula == m)) = false := by
      rw [List.any_eq_false]
      intro x hx
      have hne := (List.mem_filter.mp hx).2
      simp only [bne_iff_ne, ne_eq] at hne
      simp [hne]
    rw [if_neg (by simp [hany])]
  · intro r hr
    have hne := (List.mem_filter.mp hr).2
    simpa using hne
  · intro r hr hne
    exact List.mem_filter.mpr ⟨hr, by simpa using hne⟩

/-- Witness for C3: deleting w2 from `wState` removes its record and its
attendance, keeping nothing of w2. -/
theorem C3_witness :
    (delete_student wState "w2").2 = .ok ⟨"w2", "Bob", 0⟩ ∧
    findStudent (delete_student wState "w2").1 "w2" = none ∧
    get_student_attendance (delete_student wState "w2").1 "w2" =
      .error .notFound ∧
    (∀ r ∈ (delete_student wState "w2").1.attendance_db, r.matricula ≠ "w2") ∧
    (∀ r ∈ wState.attendance_db, r.matricula ≠ "w2" →
      r ∈ (delete_student wState "w2").1.attendance_db) :=
  C3_delete_cascades wState "w2" ⟨"w2", "Bob", 0⟩ (by decide)

theorem missing_mem_iff (s : AppState) (today : Nat) (st : Student) :
    st ∈ (get_missing_students_today s today).estudiantes_faltantes ↔
      st ∈ s.students_db ∧
        ∀ r ∈ s.attendance_db, r.fecha = today → r.matricula ≠ st.matricula := by
  unfold get_missing_students_today
  dsimp only
  rw [List.mem_filter]
  constructor
  · rintro ⟨h1, h2⟩
    refine ⟨h1, fun r hr hf hm => ?_⟩
    rw [Bool.not_eq_true'] at h2
    have h2' : ((s.attendance_db.filter (fun r => r.fecha == today)).map
        (fun r => r.matricula)).elem st.matricula = false := h2
    have hmem : st.matricula ∈ (s.attendance_db.filter
        (fun r => r.fecha == today)).map (fun r => r.matricula) :=
      List.mem_map.mpr ⟨r, List.mem_filter.mpr ⟨hr, by simp [hf]⟩, hm⟩
    have htrue := List.elem_iff.mpr hmem
    rw [h2'] at htrue
    exact absurd htrue (by simp)
  · rintro ⟨h1, h2⟩
    refine ⟨h1, ?_⟩
    rw [Bool.not_eq_true']
    have hnot : st.matricula ∉ (s.attendance_db.filter
        (fun r => r.fecha == today)).map (fun r => r.matricula) := by
      intro hmem
      rcases List.mem_map.mp hmem with ⟨r, hrf, hrm⟩
      rcases List.mem_filter.mp hrf with ⟨hr, hf⟩
      exact h2 r hr (by simpa using hf) hrm
    have h3 : ((s.attendance_db.filter (fun r => r.fecha == today)).map
        (fun r => r.matricula)).elem st.matricula = false :=
      Bool.eq_false_iff.mpr fun hb => hnot (List.elem_iff.mp hb)
    exact h3

/-- C6: `get_missing_students_today` returns today's date, the list of
exactly those registered students whose matricula appears in no attendance
record dated today (whatever its status), and the count of that list; in
particular a student with any record dated today is never included. -/
theorem C6_missing_today (s : AppState) (today : Nat) :
    (get_missing_students_today s today).fecha = today ∧
    (get_missing_students_today s today).total_faltantes =
      (get_missing_students_today s today).estudiantes_faltantes.length ∧
    (∀ st, st ∈ (get_missing_students_today s today).estudiantes_faltantes ↔
      st ∈ s.students_db ∧
        ∀ r ∈ s.attendance_db, r.fecha = today → r.matricula ≠ st.matricula) ∧
    (∀ st r, r ∈ s.attendance_db → r.fecha = today →
      r.matricula = st.matricula →
      st ∉ (get_missing_students_today s today).estudiantes_faltantes) :=
  ⟨rfl, rfl, fun st => missing_mem_iff s today st,
    fun st r hr hf hm hmem =>
      ((missing_mem_iff s today st).mp hmem).2 r hr hf hm⟩

/-- Witness for C6: w2 has a record dated day 1 in `wState`, so it is not
listed as missing on day 1. -/
theorem C6_witness :
    (⟨"w2", "Bob", 0⟩ : Student) ∉
      (get_missing_students_today wState 1).estudiantes_faltantes :=
  (C6_missing_today wState 1).2.2.2 ⟨"w2", "Bob", 0⟩
    ⟨"w2", "Bob", .presente, 1, 1, none⟩ (by decide) (by decide) (by decide)

theorem stats_porcentaje_raw (s : AppState) (today : Nat) :
    (get_today_stats s today).porcentaje_asistencia =
      if 0 < s.students_db.length then
        pyRound2 (100 * (((s.attendance_db.filter
          (fun r => r.fecha == today)).filter
          (fun r => r.status == AttendanceStatus.presente)).length : ℚ) /
          s.students_db.length)
      else 0 := by
  show pyRound2 (if 0 < s.students_db.length then
      (((s.attendance_db.filter (fun r => r.fecha == today)).filter
        (fun r => r.status == AttendanceStatus.presente)).length : ℚ) /
        s.students_db.length * 100 else 0) = _
  by_cases hT : 0 < s.students_db.length
  · rw [if_pos hT, if_pos hT]
    congr 1
    ring
  · rw [if_neg hT, if_neg hT]
    norm_num [pyRound2]

/-- C2: `get_today_stats` returns total = number of registered students,
presentes / tardanzas = counts of today's records with the matching status,
ausentes = total − (number of today's records) + (count marked ausente),
and porcentaje_asistencia = round(100·presentes/total, 2) when total > 0
and 0 otherwise; on the concrete scenario of five students with two marked
present and one marked absent it returns presentes = 2, ausentes = 3,
tardanzas = 0, porcentaje_asistencia = 40. -/
theorem C2_stats_today :
    (∀ s today,
      (get_today_stats s today).total_estudiantes = s.students_db.length ∧
      (get_today_stats s today).presentes =
        ((s.attendance_db.filter (fun r => r.fecha == today)).filter
          (fun r => r.status == AttendanceStatus.presente)).length ∧
      (get_today_stats s today).tardanzas =
        ((s.attendance_db.filter (fun r => r.fecha == today)).filter
          (fun r => r.status == AttendanceStatus.tardanza)).length ∧
      (get_today_stats s today).ausentes =
        (s.students_db.length : Int) -
          (s.attendance_db.filter (fun r => r.fecha == today)).length +
          ((s.attendance_db.filter (fun r => r.fecha == today)).filter
            (fun r => r.status == AttendanceStatus.ausente)).length ∧
      (get_today_stats s today).porcentaje_asistencia =
        (if 0 < s.students_db.length then
          pyRound2 (100 * (((s.attendance_db.filter
            (fun r => r.fecha == today)).filter
            (fun r => r.status == AttendanceStatus.presente)).length : ℚ) /
            s.students_db.length)
        else 0)) ∧
    get_today_stats fiveMarked 1 = ⟨5, 2, 3, 0, 40⟩ := by
  constructor
  · intro s today
    exact ⟨rfl, rfl, rfl, rfl, stats_porcentaje_raw s today⟩
  · have h1 : (get_today_stats fiveMarked 1).total_estudiantes = 5 := by decide
    have h2 : (get_today_stats fiveMarked 1).presentes = 2 := by decide
    have h3 : (get_today_stats fiveMarked 1).ausentes = 3 := by decide
    have h4 : (get_today_stats fiveMarked 1).tardanzas = 0 := by decide
    have h5 : (get_today_stats fiveMarked 1).porcentaje_asistencia = 40 := by
      rw [stats_porcentaje_raw]
      rw [show fiveMarked.students_db.length = 5 from by decide]
      rw [show ((fiveMarked.attendance_db.filter (fun r => r.fecha == 1)).filter
          (fun r => r.status == AttendanceStatus.presente)).length = 2 from
        by decide]
      norm_num [pyRound2]
    calc get_today_stats fiveMarked 1
        = ⟨(get_today_stats fiveMarked 1).total_estudiantes,
            (get_today_stats fiveMarked 1).presentes,
            (get_today_stats fiveMarked 1).ausentes,
            (get_today_stats fiveMarked 1).tardanzas,
            (get_today_stats fiveMarked 1).porcentaje_asistencia⟩ := rfl
      _ = ⟨5, 2, 3, 0, 40⟩ := by rw [h1, h2, h3, h4, h5]
